import Mathlib

/-
Verification development for the wallet-chain-account gateway.

The Go source is shallowly embedded as follows:
- a Go function returning `(*T, error)` (which may also panic) is embedded as
  a function into `GoResult T`, whose `ret` constructor carries the optional
  response pointer and the optional error, and whose `panic` constructor
  carries the panic message;
- the external node / data-API clients owned by the ethereum adaptor are
  embedded as records of functions (one per client call used in the source),
  so adaptor methods are parameterised by the outcome of each downstream call;
- the gRPC/protobuf request and response messages (package rpc/account, not
  part of the dispatcher source) are embedded as structures carrying exactly
  the fields the source reads or writes, with protobuf zero values as defaults;
- Go maps are embedded as association lists with last-write-wins update
  (`mapSet`) and key lookup (`mapGet`);
- byte strings are embedded as `List Nat` (each element a byte value).
-/

/-- Status codes of the uniform response envelope (common.ReturnCode). -/
inductive ReturnCode where
  | SUCCESS
  | ERROR
deriving DecidableEq, Repr

/-- Go error values as observed by the embedded code: either a plain error
(its message) or a gRPC status error carrying a numeric code and a message
(status.Errorf; codes.Internal = 13). -/
inductive GoError where
  | simple (msg : String)
  | grpcStatus (code : Nat) (msg : String)
deriving DecidableEq, Repr

/-- Outcome of a Go call returning `(*T, error)`: a normal return carrying an
optional response pointer and an optional error, or a panic carrying the
panic message. -/
inductive GoResult (α : Type) where
  | ret (resp : Option α) (err : Option GoError)
  | panic (msg : String)
deriving DecidableEq, Repr

/-- Request messages (rpc/account). Modelled from the spec: every inbound
message carries a ChainIdentifier routing key plus operation-specific payload
fields; only the fields the dispatcher and the ethereum adaptor actually read
are embedded. -/
structure SupportChainsRequest where
  chain : String := ""
deriving DecidableEq, Repr

structure ConvertAddressRequest where
  chain : String := ""
  publicKey : List Nat := []
deriving DecidableEq, Repr

structure ValidAddressRequest where
  chain : String := ""
deriving DecidableEq, Repr

structure BlockNumberRequest where
  chain : String := ""
  height : Int := 0
deriving DecidableEq, Repr

structure BlockHashRequest where
  chain : String := ""
  hash : String := ""
deriving DecidableEq, Repr

structure BlockHeaderHashRequest where
  chain : String := ""
  hash : String := ""
deriving DecidableEq, Repr

structure BlockHeaderNumberRequest where
  chain : String := ""
  height : Int := 0
deriving DecidableEq, Repr

structure AccountRequest where
  chain : String := ""
  address : String := ""
  contractAddress : String := ""
deriving DecidableEq, Repr

structure FeeRequest where
  chain : String := ""
deriving DecidableEq, Repr

structure SendTxRequest where
  chain : String := ""
deriving DecidableEq, Repr

structure TxAddressRequest where
  chain : String := ""
deriving DecidableEq, Repr

structure TxHashRequest where
  chain : String := ""
deriving DecidableEq, Repr

structure BlockByRangeRequest where
  chain : String := ""
deriving DecidableEq, Repr

structure UnSignTransactionRequest where
  chain : String := ""
deriving DecidableEq, Repr

structure SignedTransactionRequest where
  chain : String := ""
deriving DecidableEq, Repr

structure DecodeTransactionRequest where
  chain : String := ""
deriving DecidableEq, Repr

structure VerifyTransactionRequest where
  chain : String := ""
deriving DecidableEq, Repr

structure ExtraDataRequest where
  chain : String := ""
deriving DecidableEq, Repr

/-- Response messages (rpc/account). Modelled from the spec: every outbound
message carries a status code, a human-readable message, and
operation-specific payload fields, zero-valued by default. -/
structure SupportChainsResponse where
  code : ReturnCode := .SUCCESS
  msg : String := ""
  support : Bool := false
deriving DecidableEq, Repr

structure ConvertAddressResponse where
  code : ReturnCode := .SUCCESS
  msg : String := ""
  address : String := ""
deriving DecidableEq, Repr

structure ValidAddressResponse where
  code : ReturnCode := .SUCCESS
  msg : String := ""
deriving DecidableEq, Repr

/-- Per-transaction entry of a block response (account.BlockInfoTransactionList). -/
structure BlockInfoTransactionList where
  from_ : String := ""
  to_ : String := ""
  hash : String := ""
  time : String := ""
  amount : String := ""
  fee : String := ""
  status : String := ""
deriving DecidableEq, Repr

structure BlockResponse where
  code : ReturnCode := .SUCCESS
  msg : String := ""
  hash : String := ""
  baseFee : String := ""
  transactions : List BlockInfoTransactionList := []
deriving DecidableEq, Repr

/-- Block header payload (account.BlockHeader); fields rendered by the
source via String() on hashes and big integers are embedded as the rendered
strings. -/
structure BlockHeader where
  parentHash : String := ""
  uncleHash : String := ""
  coinBase : String := ""
  root : String := ""
  txHash : String := ""
  receiptHash : String := ""
  parentBeaconRoot : String := ""
  difficulty : String := ""
  number : String := ""
  gasLimit : Nat := 0
  gasUsed : Nat := 0
  time : Nat := 0
  extra : String := ""
  mixDigest : String := ""
  nonce : String := ""
  baseFee : String := ""
  withdrawalsHash : String := ""
  blobGasUsed : Nat := 0
  excessBlobGas : Nat := 0
deriving DecidableEq, Repr

structure BlockHeaderResponse where
  code : ReturnCode := .SUCCESS
  msg : String := ""
  blockHeader : Option BlockHeader := none
deriving DecidableEq, Repr

structure AccountResponse where
  code : ReturnCode := .SUCCESS
  msg : String := ""
  accountNumber : String := ""
  sequence : String := ""
  balance : String := ""
deriving DecidableEq, Repr

structure FeeResponse where
  code : ReturnCode := .SUCCESS
  msg : String := ""
deriving DecidableEq, Repr

structure SendTxResponse where
  code : ReturnCode := .SUCCESS
  msg : String := ""
deriving DecidableEq, Repr

structure TxAddressResponse where
  code : ReturnCode := .SUCCESS
  msg : String := ""
deriving DecidableEq, Repr

structure TxHashResponse where
  code : ReturnCode := .SUCCESS
  msg : String := ""
deriving DecidableEq, Repr

structure BlockByRangeResponse where
  code : ReturnCode := .SUCCESS
  msg : String := ""
deriving DecidableEq, Repr

structure UnSignTransactionResponse where
  code : ReturnCode := .SUCCESS
  msg : String := ""
deriving DecidableEq, Repr

structure SignedTransactionResponse where
  code : ReturnCode := .SUCCESS
  msg : String := ""
deriving DecidableEq, Repr

structure DecodeTransactionResponse where
  code : ReturnCode := .SUCCESS
  msg : String := ""
deriving DecidableEq, Repr

structure VerifyTransactionResponse where
  code : ReturnCode := .SUCCESS
  msg : String := ""
deriving DecidableEq, Repr

structure ExtraDataResponse where
  code : ReturnCode := .SUCCESS
  msg : String := ""
deriving DecidableEq, Repr

/-- Modelled from the spec: the adaptor contract chain.IChainAdaptor (its
defining file is not under src/) — a capability set with one method per
wallet operation, each taking one operation-specific request value and
returning a response envelope (or failing as a Go call can). The method set
is the one the dispatcher invokes and the ethereum adaptor implements. -/
structure IChainAdaptor where
  getSupportChains : SupportChainsRequest → GoResult SupportChainsResponse
  convertAddress : ConvertAddressRequest → GoResult ConvertAddressResponse
  validAddress : ValidAddressRequest → GoResult ValidAddressResponse
  getBlockByNumber : BlockNumberRequest → GoResult BlockResponse
  getBlockByHash : BlockHashRequest → GoResult BlockResponse
  getBlockHeaderByHash : BlockHeaderHashRequest → GoResult BlockHeaderResponse
  getBlockHeaderByNumber : BlockHeaderNumberRequest → GoResult BlockHeaderResponse
  getAccount : AccountRequest → GoResult AccountResponse
  getFee : FeeRequest → GoResult FeeResponse
  sendTx : SendTxRequest → GoResult SendTxResponse
  getTxByAddress : TxAddressRequest → GoResult TxAddressResponse
  getTxByHash : TxHashRequest → GoResult TxHashResponse
  getBlockByRange : BlockByRangeRequest → GoResult BlockByRangeResponse
  createUnSignTransaction : UnSignTransactionRequest → GoResult UnSignTransactionResponse
  buildSignedTransaction : SignedTransactionRequest → GoResult SignedTransactionResponse
  decodeTransaction : DecodeTransactionRequest → GoResult DecodeTransactionResponse
  verifySignedTransaction : VerifyTransactionRequest → GoResult VerifyTransactionResponse
  getExtraData : ExtraDataRequest → GoResult ExtraDataResponse

/-- Lookup in a Go map embedded as an association list. -/
def mapGet {α : Type} : List (String × α) → String → Option α
  | [], _ => none
  | (k, v) :: rest, c => if k = c then some v else mapGet rest c

/-- Go map assignment: replace the binding if the key is present, else add it. -/
def mapSet {α : Type} : List (String × α) → String → α → List (String × α)
  | [], k, v => [(k, v)]
  | (k', v') :: rest, k, v =>
      if k' = k then (k, v) :: rest else (k', v') :: mapSet rest k v

theorem mapGet_mapSet {α : Type} (m : List (String × α)) (k : String) (v : α) (c : String) :
    mapGet (mapSet m k v) c = if k = c then some v else mapGet m c := by
  induction m with
  | nil => simp [mapSet, mapGet]
  | cons hd tl ih =>
      obtain ⟨k', v'⟩ := hd
      by_cases hk : k' = k
      · subst hk
        by_cases hc : k' = c <;> simp [mapSet, mapGet, hc]
      · by_cases hc : k' = c
        · subst hc
          have : ¬ k = k' := fun h => hk h.symm
          simp [mapSet, mapGet, hk, this]
        · simp [mapSet, mapGet, hk, hc, ih]

/-- Modelled from the spec: the configuration surface consumed by the
registry at startup (package config is not under src/) — an ordered list of
chain identifiers to activate; the per-chain connection parameters and the
server port are irrelevant to the embedded definitions. -/
structure Config where
  chains : List String := []
deriving DecidableEq, Repr

/-- Modelled from the spec: the fixed routing-error message constant
config.UnsupportedOperation (package config is not under src/); the spec
states the message is "unsupported operation". -/
def UnsupportedOperation : String := "unsupported operation"

namespace ethereum

/-- Chain identifier of the ethereum adaptor. -/
def ChainName : String := "Ethereum"

/-- Go panic message raised when a nil pointer is dereferenced. -/
def nilDerefMsg : String := "runtime error: invalid memory address or nil pointer dereference"

/-- Go panic message raised when a slice index is out of range. -/
def sliceBoundsMsg : String := "runtime error: slice bounds out of range"

/-- One transaction of a block as delivered by the node client; only the
fields the source reads (To, Hash) are embedded. -/
structure EthTxItem where
  to_ : String := ""
  hash : String := ""
deriving DecidableEq, Repr

/-- Block data delivered by the node client's BlockByNumber; the hash is
embedded as its rendered string (the source only calls Hash.String()). -/
structure EthereumBlock where
  hash : String := ""
  baseFee : String := ""
  transactions : List EthTxItem := []
deriving DecidableEq, Repr

/-- Block header data delivered by the node client; fields the source
renders with String() are embedded as the rendered strings, the nonce as the
natural the source formats in base 10, and the two pointer-typed gas fields
as options (a nil pointer is `none`). -/
structure EthHeaderInfo where
  parentHash : String := ""
  uncleHash : String := ""
  coinbase : String := ""
  root : String := ""
  txHash : String := ""
  receiptHash : String := ""
  parentBeaconRoot : String := ""
  difficulty : String := ""
  number : String := ""
  gasLimit : Nat := 0
  gasUsed : Nat := 0
  time : Nat := 0
  extra : String := ""
  mixDigest : String := ""
  nonce : Nat := 0
  baseFee : String := ""
  withdrawalsHash : String := ""
  blobGasUsed : Option Nat := none
  excessBlobGas : Option Nat := none
deriving DecidableEq, Repr

/-- Balance record delivered by the data-API client (only BalanceStr is read). -/
structure EthBalance where
  balanceStr : String := ""
deriving DecidableEq, Repr

/-- The node client owned by the ethereum adaptor, embedded as one function
per call the source makes. `blockHeaderByHash` takes `none` for the zero
hash (the source passes Hash{} when the request's hash is empty) and
`some s` for the hash parsed from `s`; `blockHeaderByNumber` takes `none`
when the source passes a nil block number. -/
structure EthClient where
  blockHeaderByHash : Option String → Except GoError EthHeaderInfo
  blockHeaderByNumber : Option Int → Except GoError EthHeaderInfo
  blockByNumber : Int → Except GoError EthereumBlock
  txCountByAddress : String → Except GoError Nat

/-- The off-chain data-API client owned by the ethereum adaptor. -/
structure EthData where
  getBalanceByaddress : String → String → Except GoError EthBalance

/-- The ethereum chain adaptor: it owns a node client and a data-API client. -/
structure ChainAdaptor where
  ethClient : EthClient
  ethDataClient : EthData

/-- Lower-case hexadecimal digit of a value below 16. -/
def hexDigit (n : Nat) : Char :=
  if n < 10 then Char.ofNat (48 + n) else Char.ofNat (87 + n)

/-- Lower-case hexadecimal rendering of a byte list, two digits per byte. -/
def bytesToHexChars (b : List Nat) : List Char :=
  (b.map fun x => [hexDigit (x / 16 % 16), hexDigit (x % 16)]).flatten

/-- Nibble sequence of a byte list, high nibble first. -/
def byteNibbles (b : List Nat) : List Nat :=
  (b.map fun x => [x / 16 % 16, x % 16]).flatten

/-- Modelled from the spec: go-ethereum common.BytesToAddress (external
library) — keep the last 20 bytes, left-padding with zeros when shorter. -/
def BytesToAddress (b : List Nat) : List Nat :=
  if 20 ≤ b.length then b.drop (b.length - 20)
  else List.replicate (20 - b.length) 0 ++ b

/-- Modelled from the spec: go-ethereum common.Address.String (external
library) — the address "rendered as a checksummed hex string" (EIP-55): the
lower-case hex digits of the 20 bytes, a letter upper-cased exactly when the
corresponding nibble of the Keccak-256 hash of the ASCII hex string is at
least 8, prefixed with "0x". -/
def AddressString (keccak256 : List Nat → List Nat) (addr : List Nat) : String :=
  let hexChars := bytesToHexChars addr
  let hashNibbles := byteNibbles (keccak256 (hexChars.map Char.toNat))
  "0x" ++ String.mk (List.zipWith (fun c n => if 8 ≤ n then c.toUpper else c) hexChars hashNibbles)

def ChainAdaptor.GetSupportChains (_c : ChainAdaptor) (_req : SupportChainsRequest) :
    GoResult SupportChainsResponse :=
  .ret (some { code := .SUCCESS, msg := "Support this chain", support := true }) none

/-- ConvertAddress of the ethereum adaptor. The two guards embed Go's
slice-bounds checks for `req.PublicKey[1:]` and `Keccak256(...)[12:]`;
`keccak256` stands for the external crypto.Keccak256. -/
def ChainAdaptor.ConvertAddress (keccak256 : List Nat → List Nat) (_c : ChainAdaptor)
    (req : ConvertAddressRequest) : GoResult ConvertAddressResponse :=
  if req.publicKey.length < 1 then .panic sliceBoundsMsg
  else
    let hash := keccak256 (req.publicKey.drop 1)
    if hash.length < 12 then .panic sliceBoundsMsg
    else
      let addressCommon := BytesToAddress (hash.drop 12)
      .ret (some { code := .SUCCESS, msg := "convert address successs",
                   address := AddressString keccak256 addressCommon }) none

def ChainAdaptor.GetBlockHeaderByHash (c : ChainAdaptor) (req : BlockHeaderHashRequest) :
    GoResult BlockHeaderResponse :=
  let blockHash : Option String := if req.hash = "" then none else some req.hash
  match c.ethClient.blockHeaderByHash blockHash with
  | .error _ => .ret (some { code := .ERROR, msg := "get latest block header fail" }) none
  | .ok blockInfo =>
      match blockInfo.blobGasUsed with
      | none => .panic nilDerefMsg
      | some blobGasUsed =>
          match blockInfo.excessBlobGas with
          | none => .panic nilDerefMsg
          | some excessBlobGas =>
              .ret (some { code := .SUCCESS, msg := "get latest block header success",
                           blockHeader := some {
                             parentHash := blockInfo.parentHash,
                             uncleHash := blockInfo.uncleHash,
                             coinBase := blockInfo.coinbase,
                             root := blockInfo.root,
                             txHash := blockInfo.txHash,
                             receiptHash := blockInfo.receiptHash,
                             parentBeaconRoot := blockInfo.parentBeaconRoot,
                             difficulty := blockInfo.difficulty,
                             number := blockInfo.number,
                             gasLimit := blockInfo.gasLimit,
                             gasUsed := blockInfo.gasUsed,
                             time := blockInfo.time,
                             extra := blockInfo.extra,
                             mixDigest := blockInfo.mixDigest,
                             nonce := toString blockInfo.nonce,
                             baseFee := blockInfo.baseFee,
                             withdrawalsHash := blockInfo.withdrawalsHash,
                             blobGasUsed := blobGasUsed,
                             excessBlobGas := excessBlobGas } }) none

def ChainAdaptor.GetBlockHeaderByNumber (c : ChainAdaptor) (req : BlockHeaderNumberRequest) :
    GoResult BlockHeaderResponse :=
  let blockNumber : Option Int := if req.height = 0 then none else some req.height
  match c.ethClient.blockHeaderByNumber blockNumber with
  | .error _ => .ret (some { code := .ERROR, msg := "get lates block number fail" }) none
  | .ok blockInfo =>
      match blockInfo.blobGasUsed with
      | none => .panic nilDerefMsg
      | some blobGasUsed =>
          match blockInfo.excessBlobGas with
          | none => .panic nilDerefMsg
          | some excessBlobGas =>
              .ret (some { code := .SUCCESS, msg := "get latest block header success",
                           blockHeader := some {
                             parentHash := blockInfo.parentHash,
                             uncleHash := blockInfo.uncleHash,
                             coinBase := blockInfo.coinbase,
                             root := blockInfo.root,
                             txHash := blockInfo.txHash,
                             receiptHash := blockInfo.receiptHash,
                             parentBeaconRoot := blockInfo.parentBeaconRoot,
                             difficulty := blockInfo.difficulty,
                             number := blockInfo.number,
                             gasLimit := blockInfo.gasLimit,
                             gasUsed := blockInfo.gasUsed,
                             time := blockInfo.time,
                             extra := blockInfo.extra,
                             mixDigest := blockInfo.mixDigest,
                             nonce := toString blockInfo.nonce,
                             baseFee := blockInfo.baseFee,
                             withdrawalsHash := blockInfo.withdrawalsHash,
                             blobGasUsed := blobGasUsed,
                             excessBlobGas := excessBlobGas } }) none

def ChainAdaptor.GetBlockByNumber (c : ChainAdaptor) (req : BlockNumberRequest) :
    GoResult BlockResponse :=
  match c.ethClient.blockByNumber req.height with
  | .error _ => .ret (some { code := .ERROR, msg := "block by number error" }) none
  | .ok block =>
      let txListRet := block.transactions.map fun v =>
        ({ from_ := "0x000", to_ := v.to_, hash := v.hash,
           time := "0", amount := "10", fee := "0", status := "1" } : BlockInfoTransactionList)
      .ret (some { code := .SUCCESS, msg := "get block by number success",
                   hash := block.hash, baseFee := block.baseFee,
                   transactions := txListRet }) none

def ChainAdaptor.ValidAddress (_c : ChainAdaptor) (_req : ValidAddressRequest) :
    GoResult ValidAddressResponse :=
  .ret none none

def ChainAdaptor.GetBlockByHash (_c : ChainAdaptor) (_req : BlockHashRequest) :
    GoResult BlockResponse :=
  .panic "implement me"

def ChainAdaptor.GetAccount (c : ChainAdaptor) (req : AccountRequest) :
    GoResult AccountResponse :=
  match c.ethClient.txCountByAddress req.address with
  | .error _ => .ret (some { code := .ERROR, msg := "get nonce by address fail" }) none
  | .ok nonceResult =>
      match c.ethDataClient.getBalanceByaddress req.contractAddress req.address with
      | .error err =>
          .ret (some { code := .ERROR, msg := "get balance by address fail",
                       balance := "0" }) (some err)
      | .ok balanceResult =>
          .ret (some { code := .SUCCESS, msg := "get account response success",
                       accountNumber := "0", sequence := toString nonceResult,
                       balance := balanceResult.balanceStr }) none

def ChainAdaptor.GetFee (_c : ChainAdaptor) (_req : FeeRequest) : GoResult FeeResponse :=
  .panic "implement me"

def ChainAdaptor.SendTx (_c : ChainAdaptor) (_req : SendTxRequest) : GoResult SendTxResponse :=
  .panic "implement me"

def ChainAdaptor.GetTxByAddress (_c : ChainAdaptor) (_req : TxAddressRequest) :
    GoResult TxAddressResponse :=
  .panic "implement me"

def ChainAdaptor.GetTxByHash (_c : ChainAdaptor) (_req : TxHashRequest) :
    GoResult TxHashResponse :=
  .panic "implement me"

def ChainAdaptor.GetBlockByRange (_c : ChainAdaptor) (_req : BlockByRangeRequest) :
    GoResult BlockByRangeResponse :=
  .panic "implement me"

def ChainAdaptor.CreateUnSignTransaction (_c : ChainAdaptor) (_req : UnSignTransactionRequest) :
    GoResult UnSignTransactionResponse :=
  .panic "implement me"

def ChainAdaptor.BuildSignedTransaction (_c : ChainAdaptor) (_req : SignedTransactionRequest) :
    GoResult SignedTransactionResponse :=
  .panic "implement me"

def ChainAdaptor.DecodeTransaction (_c : ChainAdaptor) (_req : DecodeTransactionRequest) :
    GoResult DecodeTransactionResponse :=
  .panic "implement me"

def ChainAdaptor.VerifySignedTransaction (_c : ChainAdaptor) (_req : VerifyTransactionRequest) :
    GoResult VerifyTransactionResponse :=
  .panic "implement me"

def ChainAdaptor.GetExtraData (_c : ChainAdaptor) (_req : ExtraDataRequest) :
    GoResult ExtraDataResponse :=
  .panic "implement me"

/-- Package the ethereum chain adaptor as a value of the adaptor contract,
one field per method, as the Go type ChainAdaptor satisfies chain.IChainAdaptor. -/
def ChainAdaptor.toAdaptor (keccak256 : List Nat → List Nat) (c : ChainAdaptor) : IChainAdaptor where
  getSupportChains := c.GetSupportChains
  convertAddress := ChainAdaptor.ConvertAddress keccak256 c
  validAddress := c.ValidAddress
  getBlockByNumber := c.GetBlockByNumber
  getBlockByHash := c.GetBlockByHash
  getBlockHeaderByHash := c.GetBlockHeaderByHash
  getBlockHeaderByNumber := c.GetBlockHeaderByNumber
  getAccount := c.GetAccount
  getFee := c.GetFee
  sendTx := c.SendTx
  getTxByAddress := c.GetTxByAddress
  getTxByHash := c.GetTxByHash
  getBlockByRange := c.GetBlockByRange
  createUnSignTransaction := c.CreateUnSignTransaction
  buildSignedTransaction := c.BuildSignedTransaction
  decodeTransaction := c.DecodeTransaction
  verifySignedTransaction := c.VerifySignedTransaction
  getExtraData := c.GetExtraData

end ethereum

namespace chaindispatcher

/-- Chain identifiers are plain strings (type ChainType = string). -/
abbrev ChainType := String

/-- The pre-handler's reply type (type CommonReply = account.SupportChainsResponse). -/
abbrev CommonReply := SupportChainsResponse

/-- The dispatcher: a registry mapping chain name to chain adaptor. -/
structure ChainDispatcher where
  registry : List (ChainType × IChainAdaptor)

/-- Behaviour of a method call on a nil Go interface value: every method
panics with the runtime nil-dereference message. Used to embed
`d.registry[chain]` when the key is absent (a Go map read of a missing key
yields the zero value, a nil interface). -/
def nilAdaptor : IChainAdaptor where
  getSupportChains := fun _ => .panic ethereum.nilDerefMsg
  convertAddress := fun _ => .panic ethereum.nilDerefMsg
  validAddress := fun _ => .panic ethereum.nilDerefMsg
  getBlockByNumber := fun _ => .panic ethereum.nilDerefMsg
  getBlockByHash := fun _ => .panic ethereum.nilDerefMsg
  getBlockHeaderByHash := fun _ => .panic ethereum.nilDerefMsg
  getBlockHeaderByNumber := fun _ => .panic ethereum.nilDerefMsg
  getAccount := fun _ => .panic ethereum.nilDerefMsg
  getFee := fun _ => .panic ethereum.nilDerefMsg
  sendTx := fun _ => .panic ethereum.nilDerefMsg
  getTxByAddress := fun _ => .panic ethereum.nilDerefMsg
  getTxByHash := fun _ => .panic ethereum.nilDerefMsg
  getBlockByRange := fun _ => .panic ethereum.nilDerefMsg
  createUnSignTransaction := fun _ => .panic ethereum.nilDerefMsg
  buildSignedTransaction := fun _ => .panic ethereum.nilDerefMsg
  decodeTransaction := fun _ => .panic ethereum.nilDerefMsg
  verifySignedTransaction := fun _ => .panic ethereum.nilDerefMsg
  getExtraData := fun _ => .panic ethereum.nilDerefMsg

/-- Registry read `d.registry[chain]`: the registered adaptor, or the zero
value (a nil interface, every call on which panics) when absent. -/
def ChainDispatcher.lookup (d : ChainDispatcher) (chainName : ChainType) : IChainAdaptor :=
  (mapGet d.registry chainName).getD nilAdaptor

/-- Observability events recorded by New; log.Crit is not an event here
because it terminates the process (New then never returns, embedded as
`none`). -/
inductive LogEvent where
  | unsupportedChain (chain : String)
deriving DecidableEq, Repr

/-- The factory map of New, chain name to construction function; its single
entry maps the ethereum chain name to ethereum.NewChainAdaptor. The factory
functions are embedded by the outcome of applying them to the configuration
(ethereum.NewChainAdaptor dials external clients, so its outcome is a
parameter). -/
def chainAdaptorFactorMap (ethFactoryResult : Except GoError IChainAdaptor) :
    List (String × Except GoError IChainAdaptor) :=
  [(ethereum.ChainName, ethFactoryResult)]

/-- The registration loop of New over the configured chains: a chain with a
factory is constructed and registered (a factory error hits log.Crit, which
terminates the process — embedded as `none`); a chain without a factory is
skipped with an "unsupported chain" event. -/
def newLoop (ethFactoryResult : Except GoError IChainAdaptor) :
    List String → List (ChainType × IChainAdaptor) → List LogEvent →
    Option (List (ChainType × IChainAdaptor) × List LogEvent)
  | [], registry, logs => some (registry, logs)
  | c :: rest, registry, logs =>
      match mapGet (chainAdaptorFactorMap ethFactoryResult) c with
      | some factoryResult =>
          match factoryResult with
          | .error _ => none
          | .ok adaptor => newLoop ethFactoryResult rest (mapSet registry c adaptor) logs
      | none => newLoop ethFactoryResult rest registry (logs ++ [LogEvent.unsupportedChain c])

/-- New: build the dispatcher from the configuration. The result also
carries the returned error value and the recorded log events; `none` means
the process was terminated by log.Crit on a factory failure. -/
def New (conf : Config) (ethFactoryResult : Except GoError IChainAdaptor) :
    Option (ChainDispatcher × Option GoError × List LogEvent) :=
  match newLoop ethFactoryResult conf.chains [] [] with
  | none => none
  | some (registry, logs) => some ({ registry := registry }, none, logs)

/-- The gRPC unary interceptor. `getChainResult` embeds the type assertion
`req.(CommonRequest).GetChain()` (`Except.error m` is a panic with message
`m`); `handler` embeds the wrapped handler call. The deferred recover turns
any panic into a gRPC Internal-code error formatted "Panic err: %v" with the
response left at its nil zero value; the method-name extraction and the logs
have no observable effect and are not embedded. -/
def Interceptor {α : Type} (getChainResult : Except String String)
    (handler : Unit → GoResult α) : GoResult α :=
  match getChainResult with
  | .error e => .ret none (some (.grpcStatus 13 ("Panic err: " ++ e)))
  | .ok _chainName =>
      match handler () with
      | .panic e => .ret none (some (.grpcStatus 13 ("Panic err: " ++ e)))
      | .ret resp err => .ret resp err

/-- The pre-handler: a chain absent from the registry short-circuits with an
ERROR reply carrying config.UnsupportedOperation; a registered chain yields
nil. The request's GetChain() is embedded by passing the chain field. -/
def preHandler (d : ChainDispatcher) (chainName : ChainType) : Option CommonReply :=
  match mapGet d.registry chainName with
  | none => some { code := .ERROR, msg := UnsupportedOperation, support := false }
  | some _ => none

/-- Dispatcher operations. Each is a method on *ChainDispatcher and is
embedded in state-passing style, returning the call outcome together with
the dispatcher state after the call. -/
def ChainDispatcher.GetSupportChains (d : ChainDispatcher) (request : SupportChainsRequest) :
    GoResult SupportChainsResponse × ChainDispatcher :=
  match preHandler d request.chain with
  | some _ => (.ret (some { code := .ERROR, msg := UnsupportedOperation }) none, d)
  | none => ((d.lookup request.chain).getSupportChains request, d)

def ChainDispatcher.ConvertAddress (d : ChainDispatcher) (request : ConvertAddressRequest) :
    GoResult ConvertAddressResponse × ChainDispatcher :=
  match preHandler d request.chain with
  | some _ => (.ret (some { code := .ERROR, msg := "covert address fail at pre handle" }) none, d)
  | none => ((d.lookup request.chain).convertAddress request, d)

def ChainDispatcher.ValidAddress (d : ChainDispatcher) (_request : ValidAddressRequest) :
    GoResult ValidAddressResponse × ChainDispatcher :=
  (.panic "implement me", d)

def ChainDispatcher.GetBlockByNumber (d : ChainDispatcher) (request : BlockNumberRequest) :
    GoResult BlockResponse × ChainDispatcher :=
  match preHandler d request.chain with
  | some _ => (.ret (some { code := .ERROR, msg := "get block by number fail at pre handle" }) none, d)
  | none => ((d.lookup request.chain).getBlockByNumber request, d)

def ChainDispatcher.GetBlockByHash (d : ChainDispatcher) (request : BlockHashRequest) :
    GoResult BlockResponse × ChainDispatcher :=
  match preHandler d request.chain with
  | some _ => (.ret (some { code := .ERROR, msg := "get block by hash fail at pre handle" }) none, d)
  | none => ((d.lookup request.chain).getBlockByHash request, d)

def ChainDispatcher.GetBlockHeaderByHash (d : ChainDispatcher) (request : BlockHeaderHashRequest) :
    GoResult BlockHeaderResponse × ChainDispatcher :=
  match preHandler d request.chain with
  | some _ => (.ret (some { code := .ERROR, msg := "get block header by hash fail at pre handle" }) none, d)
  | none => ((d.lookup request.chain).getBlockHeaderByHash request, d)

def ChainDispatcher.GetBlockHeaderByNumber (d : ChainDispatcher) (request : BlockHeaderNumberRequest) :
    GoResult BlockHeaderResponse × ChainDispatcher :=
  match preHandler d request.chain with
  | some _ => (.ret (some { code := .ERROR, msg := "get block header by number fail at pre handle" }) none, d)
  | none => ((d.lookup request.chain).getBlockHeaderByNumber request, d)

def ChainDispatcher.GetAccount (d : ChainDispatcher) (request : AccountRequest) :
    GoResult AccountResponse × ChainDispatcher :=
  match preHandler d request.chain with
  | some _ => (.ret (some { code := .ERROR, msg := "get account information fail at pre handle" }) none, d)
  | none => ((d.lookup request.chain).getAccount request, d)

def ChainDispatcher.GetFee (d : ChainDispatcher) (request : FeeRequest) :
    GoResult FeeResponse × ChainDispatcher :=
  match preHandler d request.chain with
  | some _ => (.ret (some { code := .ERROR, msg := "get fee fail at pre handle" }) none, d)
  | none => ((d.lookup request.chain).getFee request, d)

def ChainDispatcher.SendTx (d : ChainDispatcher) (request : SendTxRequest) :
    GoResult SendTxResponse × ChainDispatcher :=
  match preHandler d request.chain with
  | some _ => (.ret (some { code := .ERROR, msg := "send tx fail at pre handle" }) none, d)
  | none => ((d.lookup request.chain).sendTx request, d)

def ChainDispatcher.GetTxByAddress (d : ChainDispatcher) (request : TxAddressRequest) :
    GoResult TxAddressResponse × ChainDispatcher :=
  match preHandler d request.chain with
  | some _ => (.ret (some { code := .ERROR, msg := "get tx by address fail pre handle" }) none, d)
  | none => ((d.lookup request.chain).getTxByAddress request, d)

def ChainDispatcher.GetTxByHash (d : ChainDispatcher) (request : TxHashRequest) :
    GoResult TxHashResponse × ChainDispatcher :=
  match preHandler d request.chain with
  | some _ => (.ret (some { code := .ERROR, msg := "get tx by hash fail at pre handle" }) none, d)
  | none => ((d.lookup request.chain).getTxByHash request, d)

def ChainDispatcher.GetBlockByRange (d : ChainDispatcher) (request : BlockByRangeRequest) :
    GoResult BlockByRangeResponse × ChainDispatcher :=
  match preHandler d request.chain with
  | some _ => (.ret (some { code := .ERROR, msg := "get blcok by range fail at pre handle" }) none, d)
  | none => ((d.lookup request.chain).getBlockByRange request, d)

def ChainDispatcher.CreateUnSignTransaction (d : ChainDispatcher) (request : UnSignTransactionRequest) :
    GoResult UnSignTransactionResponse × ChainDispatcher :=
  match preHandler d request.chain with
  | some _ => (.ret (some { code := .ERROR, msg := "get un sign tx fail at pre handle" }) none, d)
  | none => ((d.lookup request.chain).createUnSignTransaction request, d)

def ChainDispatcher.BuildSignedTransaction (d : ChainDispatcher) (request : SignedTransactionRequest) :
    GoResult SignedTransactionResponse × ChainDispatcher :=
  match preHandler d request.chain with
  | some _ => (.ret (some { code := .ERROR, msg := "signed tx fail at pre handle" }) none, d)
  | none => ((d.lookup request.chain).buildSignedTransaction request, d)

def ChainDispatcher.DecodeTransaction (d : ChainDispatcher) (request : DecodeTransactionRequest) :
    GoResult DecodeTransactionResponse × ChainDispatcher :=
  match preHandler d request.chain with
  | some _ => (.ret (some { code := .ERROR, msg := "decode tx fail at pre handle" }) none, d)
  | none => ((d.lookup request.chain).decodeTransaction request, d)

def ChainDispatcher.VerifySignedTransaction (d : ChainDispatcher) (request : VerifyTransactionRequest) :
    GoResult VerifyTransactionResponse × ChainDispatcher :=
  match preHandler d request.chain with
  | some _ => (.ret (some { code := .ERROR, msg := "verify tx fail at pre handle" }) none, d)
  | none => ((d.lookup request.chain).verifySignedTransaction request, d)

def ChainDispatcher.GetExtraData (d : ChainDispatcher) (request : ExtraDataRequest) :
    GoResult ExtraDataResponse × ChainDispatcher :=
  match preHandler d request.chain with
  | some _ => (.ret (some { code := .ERROR, msg := "get extra data fail at pre handle" }) none, d)
  | none => ((d.lookup request.chain).getExtraData request, d)

end chaindispatcher

/-
Concrete fixtures used by witnesses and counterexamples: a degenerate
Keccak-256 stand-in of the right output length, a node client whose calls
fail, a data-API client whose call fails, and the ethereum adaptor built
from them, registered in a one-chain dispatcher.
-/

/-- A length-32 stand-in for the Keccak-256 parameter. -/
def keccakW : List Nat → List Nat := fun _ => List.replicate 32 0

def ethClientW : ethereum.EthClient where
  blockHeaderByHash := fun _ => .error (.simple "node down")
  blockHeaderByNumber := fun _ => .error (.simple "node down")
  blockByNumber := fun _ => .error (.simple "node down")
  txCountByAddress := fun _ => .ok 7

def ethDataW : ethereum.EthData where
  getBalanceByaddress := fun _ _ => .error (.simple "data api down")

def chainAdaptorW : ethereum.ChainAdaptor where
  ethClient := ethClientW
  ethDataClient := ethDataW

def adaptorW : IChainAdaptor := ethereum.ChainAdaptor.toAdaptor keccakW chainAdaptorW

def dispatcherW : chaindispatcher.ChainDispatcher where
  registry := [(ethereum.ChainName, adaptorW)]

def confW : Config where
  chains := ["Ethereum", "bitcoin"]

/-- Claim C9: the ethereum adaptor's ValidAddress returns a nil response and
a nil error for every request — the caller receives neither a response
envelope with a status code nor an error value. -/
theorem c9_validaddress_nil_nil (c : ethereum.ChainAdaptor) (req : ValidAddressRequest) :
    ethereum.ChainAdaptor.ValidAddress c req = .ret none none := rfl

/-- Claim C2 (code evaluated at the failing inputs): every unimplemented
operation of the ethereum adaptor panics with "implement me" instead of
returning an ERROR envelope with a "not implemented" message; the panic
aborts the request up to the Interceptor boundary. -/
theorem c2_unimplemented_ops_panic (c : ethereum.ChainAdaptor) :
    (∀ req, ethereum.ChainAdaptor.GetFee c req = .panic "implement me")
    ∧ (∀ req, ethereum.ChainAdaptor.SendTx c req = .panic "implement me")
    ∧ (∀ req, ethereum.ChainAdaptor.GetTxByAddress c req = .panic "implement me")
    ∧ (∀ req, ethereum.ChainAdaptor.GetTxByHash c req = .panic "implement me")
    ∧ (∀ req, ethereum.ChainAdaptor.GetBlockByRange c req = .panic "implement me")
    ∧ (∀ req, ethereum.ChainAdaptor.CreateUnSignTransaction c req = .panic "implement me")
    ∧ (∀ req, ethereum.ChainAdaptor.BuildSignedTransaction c req = .panic "implement me")
    ∧ (∀ req, ethereum.ChainAdaptor.DecodeTransaction c req = .panic "implement me")
    ∧ (∀ req, ethereum.ChainAdaptor.VerifySignedTransaction c req = .panic "implement me")
    ∧ (∀ req, ethereum.ChainAdaptor.GetExtraData c req = .panic "implement me")
    ∧ (∀ req, ethereum.ChainAdaptor.GetBlockByHash c req = .panic "implement me") :=
  ⟨fun _ => rfl, fun _ => rfl, fun _ => rfl, fun _ => rfl, fun _ => rfl, fun _ => rfl,
   fun _ => rfl, fun _ => rfl, fun _ => rfl, fun _ => rfl, fun _ => rfl⟩

/-- Claim C8: every dispatcher operation leaves the registry unchanged — in
the state-passing embedding, the dispatcher state returned by each of the 17
operations equals the input state for every request. -/
theorem c8_registry_unchanged :
    (∀ d (req : SupportChainsRequest), (chaindispatcher.ChainDispatcher.GetSupportChains d req).2 = d)
    ∧ (∀ d (req : ConvertAddressRequest), (chaindispatcher.ChainDispatcher.ConvertAddress d req).2 = d)
    ∧ (∀ d (req : ValidAddressRequest), (chaindispatcher.ChainDispatcher.ValidAddress d req).2 = d)
    ∧ (∀ d (req : BlockNumberRequest), (chaindispatcher.ChainDispatcher.GetBlockByNumber d req).2 = d)
    ∧ (∀ d (req : BlockHashRequest), (chaindispatcher.ChainDispatcher.GetBlockByHash d req).2 = d)
    ∧ (∀ d (req : BlockHeaderHashRequest), (chaindispatcher.ChainDispatcher.GetBlockHeaderByHash d req).2 = d)
    ∧ (∀ d (req : BlockHeaderNumberRequest), (chaindispatcher.ChainDispatcher.GetBlockHeaderByNumber d req).2 = d)
    ∧ (∀ d (req : AccountRequest), (chaindispatcher.ChainDispatcher.GetAccount d req).2 = d)
    ∧ (∀ d (req : FeeRequest), (chaindispatcher.ChainDispatcher.GetFee d req).2 = d)
    ∧ (∀ d (req : SendTxRequest), (chaindispatcher.ChainDispatcher.SendTx d req).2 = d)
    ∧ (∀ d (req : TxAddressRequest), (chaindispatcher.ChainDispatcher.GetTxByAddress d req).2 = d)
    ∧ (∀ d (req : TxHashRequest), (chaindispatcher.ChainDispatcher.GetTxByHash d req).2 = d)
    ∧ (∀ d (req : BlockByRangeRequest), (chaindispatcher.ChainDispatcher.GetBlockByRange d req).2 = d)
    ∧ (∀ d (req : UnSignTransactionRequest), (chaindispatcher.ChainDispatcher.CreateUnSignTransaction d req).2 = d)
    ∧ (∀ d (req : SignedTransactionRequest), (chaindispatcher.ChainDispatcher.BuildSignedTransaction d req).2 = d)
    ∧ (∀ d (req : DecodeTransactionRequest), (chaindispatcher.ChainDispatcher.DecodeTransaction d req).2 = d)
    ∧ (∀ d (req : VerifyTransactionRequest), (chaindispatcher.ChainDispatcher.VerifySignedTransaction d req).2 = d)
    ∧ (∀ d (req : ExtraDataRequest), (chaindispatcher.ChainDispatcher.GetExtraData d req).2 = d) := by
  refine ⟨?_, ?_, ?_, ?_, ?_, ?_, ?_, ?_, ?_, ?_, ?_, ?_, ?_, ?_, ?_, ?_, ?_, ?_⟩ <;>
    intro d req <;>
    first
      | rfl
      | (cases h : chaindispatcher.preHandler d req.chain <;>
          simp [chaindispatcher.ChainDispatcher.GetSupportChains,
                chaindispatcher.ChainDispatcher.ConvertAddress,
                chaindispatcher.ChainDispatcher.ValidAddress,
                chaindispatcher.ChainDispatcher.GetBlockByNumber,
                chaindispatcher.ChainDispatcher.GetBlockByHash,
                chaindispatcher.ChainDispatcher.GetBlockHeaderByHash,
                chaindispatcher.ChainDispatcher.GetBlockHeaderByNumber,
                chaindispatcher.ChainDispatcher.GetAccount,
                chaindispatcher.ChainDispatcher.GetFee,
                chaindispatcher.ChainDispatcher.SendTx,
                chaindispatcher.ChainDispatcher.GetTxByAddress,
                chaindispatcher.ChainDispatcher.GetTxByHash,
                chaindispatcher.ChainDispatcher.GetBlockByRange,
                chaindispatcher.ChainDispatcher.CreateUnSignTransaction,
                chaindispatcher.ChainDispatcher.BuildSignedTransaction,
                chaindispatcher.ChainDispatcher.DecodeTransaction,
                chaindispatcher.ChainDispatcher.VerifySignedTransaction,
                chaindispatcher.ChainDispatcher.GetExtraData, h])

/-- Claim C1 as amended: for every request whose chain identifier is not a
key of the registry, every dispatcher operation except ValidAddress returns
a response with status ERROR and a nil error, and the constant result shows
no adaptor method is invoked; the message however is operation-specific —
the fixed unsupported-operation message is used only by GetSupportChains.
ValidAddress instead panics unconditionally. -/
theorem c1_unknown_chain_short_circuits :
    (∀ d (req : SupportChainsRequest), mapGet d.registry req.chain = none →
        (chaindispatcher.ChainDispatcher.GetSupportChains d req).1 =
          .ret (some { code := .ERROR, msg := UnsupportedOperation }) none)
    ∧ (∀ d (req : ConvertAddressRequest), mapGet d.registry req.chain = none →
        (chaindispatcher.ChainDispatcher.ConvertAddress d req).1 =
          .ret (some { code := .ERROR, msg := "covert address fail at pre handle" }) none)
    ∧ (∀ d (req : BlockNumberRequest), mapGet d.registry req.chain = none →
        (chaindispatcher.ChainDispatcher.GetBlockByNumber d req).1 =
          .ret (some { code := .ERROR, msg := "get block by number fail at pre handle" }) none)
    ∧ (∀ d (req : BlockHashRequest), mapGet d.registry req.chain = none →
        (chaindispatcher.ChainDispatcher.GetBlockByHash d req).1 =
          .ret (some { code := .ERROR, msg := "get block by hash fail at pre handle" }) none)
    ∧ (∀ d (req : BlockHeaderHashRequest), mapGet d.registry req.chain = none →
        (chaindispatcher.ChainDispatcher.GetBlockHeaderByHash d req).1 =
          .ret (some { code := .ERROR, msg := "get block header by hash fail at pre handle" }) none)
    ∧ (∀ d (req : BlockHeaderNumberRequest), mapGet d.registry req.chain = none →
        (chaindispatcher.ChainDispatcher.GetBlockHeaderByNumber d req).1 =
          .ret (some { code := .ERROR, msg := "get block header by number fail at pre handle" }) none)
    ∧ (∀ d (req : AccountRequest), mapGet d.registry req.chain = none →
        (chaindispatcher.ChainDispatcher.GetAccount d req).1 =
          .ret (some { code := .ERROR, msg := "get account information fail at pre handle" }) none)
    ∧ (∀ d (req : FeeRequest), mapGet d.registry req.chain = none →
        (chaindispatcher.ChainDispatcher.GetFee d req).1 =
          .ret (some { code := .ERROR, msg := "get fee fail at pre handle" }) none)
    ∧ (∀ d (req : SendTxRequest), mapGet d.registry req.chain = none →
        (chaindispatcher.ChainDispatcher.SendTx d req).1 =
          .ret (some { code := .ERROR, msg := "send tx fail at pre handle" }) none)
    ∧ (∀ d (req : TxAddressRequest), mapGet d.registry req.chain = none →
        (chaindispatcher.ChainDispatcher.GetTxByAddress d req).1 =
          .ret (some { code := .ERROR, msg := "get tx by address fail pre handle" }) none)
    ∧ (∀ d (req : TxHashRequest), mapGet d.registry req.chain = none →
        (chaindispatcher.ChainDispatcher.GetTxByHash d req).1 =
          .ret (some { code := .ERROR, msg := "get tx by hash fail at pre handle" }) none)
    ∧ (∀ d (req : BlockByRangeRequest), mapGet d.registry req.chain = none →
        (chaindispatcher.ChainDispatcher.GetBlockByRange d req).1 =
          .ret (some { code := .ERROR, msg := "get blcok by range fail at pre handle" }) none)
    ∧ (∀ d (req : UnSignTransactionRequest), mapGet d.registry req.chain = none →
        (chaindispatcher.ChainDispatcher.CreateUnSignTransaction d req).1 =
          .ret (some { code := .ERROR, msg := "get un sign tx fail at pre handle" }) none)
    ∧ (∀ d (req : SignedTransactionRequest), mapGet d.registry req.chain = none →
        (chaindispatcher.ChainDispatcher.BuildSignedTransaction d req).1 =
          .ret (some { code := .ERROR, msg := "signed tx fail at pre handle" }) none)
    ∧ (∀ d (req : DecodeTransactionRequest), mapGet d.registry req.chain = none →
        (chaindispatcher.ChainDispatcher.DecodeTransaction d req).1 =
          .ret (some { code := .ERROR, msg := "decode tx fail at pre handle" }) none)
    ∧ (∀ d (req : VerifyTransactionRequest), mapGet d.registry req.chain = none →
        (chaindispatcher.ChainDispatcher.VerifySignedTransaction d req).1 =
          .ret (some { code := .ERROR, msg := "verify tx fail at pre handle" }) none)
    ∧ (∀ d (req : ExtraDataRequest), mapGet d.registry req.chain = none →
        (chaindispatcher.ChainDispatcher.GetExtraData d req).1 =
          .ret (some { code := .ERROR, msg := "get extra data fail at pre handle" }) none)
    ∧ (∀ d (req : ValidAddressRequest),
        (chaindispatcher.ChainDispatcher.ValidAddress d req).1 = .panic "implement me") := by
  refine ⟨?_, ?_, ?_, ?_, ?_, ?_, ?_, ?_, ?_, ?_, ?_, ?_, ?_, ?_, ?_, ?_, ?_, ?_⟩ <;>
    intro d req <;>
    first
      | rfl
      | (intro h;
         simp [chaindispatcher.ChainDispatcher.GetSupportChains,
               chaindispatcher.ChainDispatcher.ConvertAddress,
               chaindispatcher.ChainDispatcher.GetBlockByNumber,
               chaindispatcher.ChainDispatcher.GetBlockByHash,
               chaindispatcher.ChainDispatcher.GetBlockHeaderByHash,
               chaindispatcher.ChainDispatcher.GetBlockHeaderByNumber,
               chaindispatcher.ChainDispatcher.GetAccount,
               chaindispatcher.ChainDispatcher.GetFee,
               chaindispatcher.ChainDispatcher.SendTx,
               chaindispatcher.ChainDispatcher.GetTxByAddress,
               chaindispatcher.ChainDispatcher.GetTxByHash,
               chaindispatcher.ChainDispatcher.GetBlockByRange,
               chaindispatcher.ChainDispatcher.CreateUnSignTransaction,
               chaindispatcher.ChainDispatcher.BuildSignedTransaction,
               chaindispatcher.ChainDispatcher.DecodeTransaction,
               chaindispatcher.ChainDispatcher.VerifySignedTransaction,
               chaindispatcher.ChainDispatcher.GetExtraData,
               chaindispatcher.preHandler, h])

/-- Counterexample to claim C1 as stated: with an empty registry and the
unregistered chain "bitcoin", ConvertAddress answers with the
operation-specific message "covert address fail at pre handle", which is not
the fixed unsupported-operation message, and ValidAddress does not return an
ERROR envelope at all but panics. -/
theorem c1_counterexample :
    (chaindispatcher.ChainDispatcher.ConvertAddress { registry := [] }
        { chain := "bitcoin", publicKey := [] }).1 =
      .ret (some { code := .ERROR, msg := "covert address fail at pre handle" }) none
    ∧ "covert address fail at pre handle" ≠ UnsupportedOperation
    ∧ (chaindispatcher.ChainDispatcher.ValidAddress { registry := [] } { chain := "bitcoin" }).1 =
        .panic "implement me" :=
  ⟨rfl, by decide, rfl⟩

/-- Witness for c1_unknown_chain_short_circuits at a concrete input. -/
theorem c1_witness :
    (chaindispatcher.ChainDispatcher.GetSupportChains { registry := [] } { chain := "bitcoin" }).1 =
      .ret (some { code := .ERROR, msg := UnsupportedOperation }) none :=
  c1_unknown_chain_short_circuits.1 { registry := [] } { chain := "bitcoin" } rfl

/-- Claim C4 as amended: for every request whose chain identifier is a key
of the registry, every dispatcher operation except ValidAddress returns the
registered adaptor's result for the unmodified request (hence invokes
exactly that adaptor, exactly once); ValidAddress panics without invoking
the adaptor. -/
theorem c4_known_chain_dispatch :
    (∀ d (req : SupportChainsRequest) a, mapGet d.registry req.chain = some a →
        (chaindispatcher.ChainDispatcher.GetSupportChains d req).1 = a.getSupportChains req)
    ∧ (∀ d (req : ConvertAddressRequest) a, mapGet d.registry req.chain = some a →
        (chaindispatcher.ChainDispatcher.ConvertAddress d req).1 = a.convertAddress req)
    ∧ (∀ d (req : BlockNumberRequest) a, mapGet d.registry req.chain = some a →
        (chaindispatcher.ChainDispatcher.GetBlockByNumber d req).1 = a.getBlockByNumber req)
    ∧ (∀ d (req : BlockHashRequest) a, mapGet d.registry req.chain = some a →
        (chaindispatcher.ChainDispatcher.GetBlockByHash d req).1 = a.getBlockByHash req)
    ∧ (∀ d (req : BlockHeaderHashRequest) a, mapGet d.registry req.chain = some a →
        (chaindispatcher.ChainDispatcher.GetBlockHeaderByHash d req).1 = a.getBlockHeaderByHash req)
    ∧ (∀ d (req : BlockHeaderNumberRequest) a, mapGet d.registry req.chain = some a →
        (chaindispatcher.ChainDispatcher.GetBlockHeaderByNumber d req).1 = a.getBlockHeaderByNumber req)
    ∧ (∀ d (req : AccountRequest) a, mapGet d.registry req.chain = some a →
        (chaindispatcher.ChainDispatcher.GetAccount d req).1 = a.getAccount req)
    ∧ (∀ d (req : FeeRequest) a, mapGet d.registry req.chain = some a →
        (chaindispatcher.ChainDispatcher.GetFee d req).1 = a.getFee req)
    ∧ (∀ d (req : SendTxRequest) a, mapGet d.registry req.chain = some a →
        (chaindispatcher.ChainDispatcher.SendTx d req).1 = a.sendTx req)
    ∧ (∀ d (req : TxAddressRequest) a, mapGet d.registry req.chain = some a →
        (chaindispatcher.ChainDispatcher.GetTxByAddress d req).1 = a.getTxByAddress req)
    ∧ (∀ d (req : TxHashRequest) a, mapGet d.registry req.chain = some a →
        (chaindispatcher.ChainDispatcher.GetTxByHash d req).1 = a.getTxByHash req)
    ∧ (∀ d (req : BlockByRangeRequest) a, mapGet d.registry req.chain = some a →
        (chaindispatcher.ChainDispatcher.GetBlockByRange d req).1 = a.getBlockByRange req)
    ∧ (∀ d (req : UnSignTransactionRequest) a, mapGet d.registry req.chain = some a →
        (chaindispatcher.ChainDispatcher.CreateUnSignTransaction d req).1 = a.createUnSignTransaction req)
    ∧ (∀ d (req : SignedTransactionRequest) a, mapGet d.registry req.chain = some a →
        (chaindispatcher.ChainDispatcher.BuildSignedTransaction d req).1 = a.buildSignedTransaction req)
    ∧ (∀ d (req : DecodeTransactionRequest) a, mapGet d.registry req.chain = some a →
        (chaindispatcher.ChainDispatcher.DecodeTransaction d req).1 = a.decodeTransaction req)
    ∧ (∀ d (req : VerifyTransactionRequest) a, mapGet d.registry req.chain = some a →
        (chaindispatcher.ChainDispatcher.VerifySignedTransaction d req).1 = a.verifySignedTransaction req)
    ∧ (∀ d (req : ExtraDataRequest) a, mapGet d.registry req.chain = some a →
        (chaindispatcher.ChainDispatcher.GetExtraData d req).1 = a.getExtraData req)
    ∧ (∀ d (req : ValidAddressRequest),
        (chaindispatcher.ChainDispatcher.ValidAddress d req).1 = .panic "implement me") := by
  refine ⟨?_, ?_, ?_, ?_, ?_, ?_, ?_, ?_, ?_, ?_, ?_, ?_, ?_, ?_, ?_, ?_, ?_, ?_⟩ <;>
    intro d req <;>
    first
      | rfl
      | (intro a h;
         simp [chaindispatcher.ChainDispatcher.GetSupportChains,
               chaindispatcher.ChainDispatcher.ConvertAddress,
               chaindispatcher.ChainDispatcher.GetBlockByNumber,
               chaindispatcher.ChainDispatcher.GetBlockByHash,
               chaindispatcher.ChainDispatcher.GetBlockHeaderByHash,
               chaindispatcher.ChainDispatcher.GetBlockHeaderByNumber,
               chaindispatcher.ChainDispatcher.GetAccount,
               chaindispatcher.ChainDispatcher.GetFee,
               chaindispatcher.ChainDispatcher.SendTx,
               chaindispatcher.ChainDispatcher.GetTxByAddress,
               chaindispatcher.ChainDispatcher.GetTxByHash,
               chaindispatcher.ChainDispatcher.GetBlockByRange,
               chaindispatcher.ChainDispatcher.CreateUnSignTransaction,
               chaindispatcher.ChainDispatcher.BuildSignedTransaction,
               chaindispatcher.ChainDispatcher.DecodeTransaction,
               chaindispatcher.ChainDispatcher.VerifySignedTransaction,
               chaindispatcher.ChainDispatcher.GetExtraData,
               chaindispatcher.preHandler, chaindispatcher.ChainDispatcher.lookup, h])

/-- Counterexample to claim C4 as stated: with the ethereum adaptor
registered under its chain name, the dispatcher's ValidAddress panics with
"implement me" instead of invoking the registered adaptor, whose
ValidAddress would return a nil response and nil error. -/
theorem c4_counterexample :
    (chaindispatcher.ChainDispatcher.ValidAddress dispatcherW { chain := "Ethereum" }).1 =
      .panic "implement me"
    ∧ adaptorW.validAddress { chain := "Ethereum" } = .ret none none
    ∧ (GoResult.panic "implement me" : GoResult ValidAddressResponse) ≠ .ret none none :=
  ⟨rfl, rfl, by decide⟩

/-- Witness for c4_known_chain_dispatch at a concrete input. -/
theorem c4_witness :
    (chaindispatcher.ChainDispatcher.GetAccount dispatcherW
        { chain := "Ethereum", address := "0xabc", contractAddress := "" }).1 =
      adaptorW.getAccount { chain := "Ethereum", address := "0xabc", contractAddress := "" } :=
  c4_known_chain_dispatch.2.2.2.2.2.2.1 dispatcherW
    { chain := "Ethereum", address := "0xabc", contractAddress := "" } adaptorW rfl

/-- Claim C3 as amended: the Interceptor catches every in-process fault and
never propagates the abort to the caller, but it converts the fault into a
gRPC Internal-code error (code 13) whose message embeds the panic value —
with the response left at nil — not into a Response Envelope with status
ERROR and a generic message; a non-panicking handler's outcome is returned
unchanged. -/
theorem c3_interceptor_fault_boundary (α : Type) (g : Except String String)
    (h : Unit → GoResult α) :
    (∀ m, chaindispatcher.Interceptor g h ≠ .panic m)
    ∧ (∀ c m, g = .ok c → h () = .panic m →
        chaindispatcher.Interceptor g h = .ret none (some (.grpcStatus 13 ("Panic err: " ++ m))))
    ∧ (∀ c r e, g = .ok c → h () = .ret r e →
        chaindispatcher.Interceptor g h = .ret r e)
    ∧ (∀ m, g = .error m →
        chaindispatcher.Interceptor g h = .ret none (some (.grpcStatus 13 ("Panic err: " ++ m)))) := by
  refine ⟨?_, ?_, ?_, ?_⟩
  · intro m
    cases g with
    | error e => simp [chaindispatcher.Interceptor]
    | ok c => cases hh : h () <;> simp [chaindispatcher.Interceptor, hh]
  · intro c m hg hh
    subst hg
    simp [chaindispatcher.Interceptor, hh]
  · intro c r e hg hh
    subst hg
    simp [chaindispatcher.Interceptor, hh]
  · intro m hg
    subst hg
    simp [chaindispatcher.Interceptor]

/-- Counterexample to claim C3 as stated: when the wrapped operation panics
with "implement me", the Interceptor's result carries a nil response — no
Response Envelope with status ERROR at all — and a gRPC error whose message
"Panic err: implement me" embeds the panic value rather than being a generic
internal-error message. -/
theorem c3_counterexample :
    chaindispatcher.Interceptor (Except.ok "Ethereum")
        (fun _ => (GoResult.panic "implement me" : GoResult FeeResponse)) =
      .ret none (some (.grpcStatus 13 "Panic err: implement me")) := rfl

/-- Witness for c3_interceptor_fault_boundary at a concrete input. -/
theorem c3_witness :
    chaindispatcher.Interceptor (Except.ok "Ethereum")
        (fun _ => (GoResult.panic "boom" : GoResult FeeResponse)) =
      .ret none (some (.grpcStatus 13 ("Panic err: " ++ "boom"))) :=
  (c3_interceptor_fault_boundary FeeResponse (Except.ok "Ethereum")
      (fun _ => GoResult.panic "boom")).2.1 "Ethereum" "boom" rfl rfl

/-- Claim C6: ConvertAddress on the ethereum adaptor, for a 65-byte
uncompressed public key and any Keccak-256 function with 32-byte output,
returns SUCCESS with an address that is the checksummed hex rendering of
bytes 12..31 of the Keccak-256 hash of the key's trailing 64 bytes; those
bytes are exactly the last 20 bytes of the hash, and dropping the leading
format byte is exactly taking the trailing 64 bytes of the key. -/
theorem c6_convert_address (keccak256 : List Nat → List Nat) (c : ethereum.ChainAdaptor)
    (req : ConvertAddressRequest)
    (hk : ∀ bs, (keccak256 bs).length = 32)
    (hpk : req.publicKey.length = 65) :
    ethereum.ChainAdaptor.ConvertAddress keccak256 c req =
      .ret (some { code := .SUCCESS, msg := "convert address successs",
                   address := ethereum.AddressString keccak256
                     (List.drop 12 (keccak256 (req.publicKey.drop 1))) }) none
    ∧ List.drop 12 (keccak256 (req.publicKey.drop 1)) =
        List.drop ((keccak256 (req.publicKey.drop 1)).length - 20)
          (keccak256 (req.publicKey.drop 1))
    ∧ req.publicKey.drop 1 = List.drop (req.publicKey.length - 64) req.publicKey := by
  refine ⟨?_, ?_, ?_⟩
  · unfold ethereum.ChainAdaptor.ConvertAddress
    simp [hpk, hk, ethereum.BytesToAddress]
  · simp [hk]
  · simp [hpk]

/-- Witness for c6_convert_address at a concrete 65-byte key and a concrete
length-32 hash function. -/
theorem c6_witness :
    ethereum.ChainAdaptor.ConvertAddress keccakW chainAdaptorW
        { chain := "Ethereum", publicKey := List.replicate 65 0 } =
      .ret (some { code := .SUCCESS, msg := "convert address successs",
                   address := ethereum.AddressString keccakW
                     (List.drop 12 (keccakW ((List.replicate 65 0).drop 1))) }) none
    ∧ List.drop 12 (keccakW ((List.replicate 65 0).drop 1)) =
        List.drop ((keccakW ((List.replicate 65 0).drop 1)).length - 20)
          (keccakW ((List.replicate 65 0).drop 1))
    ∧ (List.replicate 65 (0 : Nat)).drop 1 =
        List.drop ((List.replicate 65 (0 : Nat)).length - 64) (List.replicate 65 0) :=
  c6_convert_address keccakW chainAdaptorW
    { chain := "Ethereum", publicKey := List.replicate 65 0 } (fun _ => rfl) rfl

/-- Claim C7 as amended: for the implemented data-fetching operations the
status code is SUCCESS exactly when every downstream call succeeded; the
zero-payload part of the claim fails (see the counterexample), because
GetAccount's balance-failure ERROR response carries Balance "0" together
with a non-nil error, and SUCCESS payloads carry fabricated placeholder
fields. -/
theorem c7_success_iff_downstream_ok (c : ethereum.ChainAdaptor)
    (reqB : BlockNumberRequest) (reqA : AccountRequest) :
    ((∃ r e, ethereum.ChainAdaptor.GetBlockByNumber c reqB = .ret (some r) e ∧ r.code = .SUCCESS)
      ↔ ∃ b, c.ethClient.blockByNumber reqB.height = .ok b)
    ∧ ((∃ r e, ethereum.ChainAdaptor.GetAccount c reqA = .ret (some r) e ∧ r.code = .SUCCESS)
      ↔ (∃ n, c.ethClient.txCountByAddress reqA.address = .ok n)
        ∧ ∃ b, c.ethDataClient.getBalanceByaddress reqA.contractAddress reqA.address = .ok b) := by
  constructor
  · cases hB : c.ethClient.blockByNumber reqB.height with
    | error e => simp [ethereum.ChainAdaptor.GetBlockByNumber, hB]
    | ok b => simp [ethereum.ChainAdaptor.GetBlockByNumber, hB]
  · cases hN : c.ethClient.txCountByAddress reqA.address with
    | error e => simp [ethereum.ChainAdaptor.GetAccount, hN]
    | ok n =>
        cases hBal : c.ethDataClient.getBalanceByaddress reqA.contractAddress reqA.address with
        | error e => simp [ethereum.ChainAdaptor.GetAccount, hN, hBal]
        | ok b => simp [ethereum.ChainAdaptor.GetAccount, hN, hBal]

/-- Counterexample to claim C7 as stated: when the nonce fetch succeeds and
the balance fetch fails, GetAccount returns an ERROR envelope whose Balance
payload field is "0" — not the zero value "" — and additionally returns a
non-nil error alongside the response. -/
theorem c7_counterexample :
    ethereum.ChainAdaptor.GetAccount chainAdaptorW
        { chain := "Ethereum", address := "0xabc", contractAddress := "" } =
      .ret (some { code := .ERROR, msg := "get balance by address fail", balance := "0" })
        (some (.simple "data api down"))
    ∧ ("0" : String) ≠ "" :=
  ⟨rfl, by decide⟩

/-- Invariants of the registration loop of New, for any starting registry
and event log: when the loop returns (no factory failed), a key is present
in the final registry exactly when it was already present or is a traversed
chain with a factory; every traversed chain without a factory has an
unsupported-chain event recorded; and the event log only grows. -/
theorem newLoop_spec (f : Except GoError IChainAdaptor) :
    ∀ (cs : List String) (reg : List (chaindispatcher.ChainType × IChainAdaptor))
      (logs : List chaindispatcher.LogEvent)
      (reg' : List (chaindispatcher.ChainType × IChainAdaptor))
      (logs' : List chaindispatcher.LogEvent),
      chaindispatcher.newLoop f cs reg logs = some (reg', logs') →
      (∀ c, (mapGet reg' c).isSome ↔
        ((mapGet reg c).isSome ∨
          (c ∈ cs ∧ (mapGet (chaindispatcher.chainAdaptorFactorMap f) c).isSome)))
      ∧ (∀ c, c ∈ cs → mapGet (chaindispatcher.chainAdaptorFactorMap f) c = none →
          chaindispatcher.LogEvent.unsupportedChain c ∈ logs')
      ∧ (∀ ev, ev ∈ logs → ev ∈ logs') := by
  intro cs
  induction cs with
  | nil =>
      intro reg logs reg' logs' h
      simp [chaindispatcher.newLoop] at h
      obtain ⟨h1, h2⟩ := h
      subst h1; subst h2
      exact ⟨fun c => by simp, fun c hc => by simp at hc, fun ev he => he⟩
  | cons c rest ih =>
      intro reg logs reg' logs' h
      unfold chaindispatcher.newLoop at h
      cases hf : mapGet (chaindispatcher.chainAdaptorFactorMap f) c with
      | some fr =>
          rw [hf] at h
          cases fr with
          | error e => simp at h
          | ok a =>
              obtain ⟨A, B, C⟩ := ih (mapSet reg c a) logs reg' logs' h
              refine ⟨?_, ?_, C⟩
              · intro x
                rw [A x, mapGet_mapSet]
                by_cases hcx : c = x
                · subst hcx
                  simp [hf]
                · have hxc : ¬ (x = c) := fun hh => hcx hh.symm
                  simp [hcx, hxc, List.mem_cons]
              · intro x hx hnone
                rcases List.mem_cons.mp hx with hxc | hxr
                · subst hxc
                  rw [hf] at hnone
                  simp at hnone
                · exact B x hxr hnone
      | none =>
          rw [hf] at h
          obtain ⟨A, B, C⟩ := ih reg (logs ++ [chaindispatcher.LogEvent.unsupportedChain c]) reg' logs' h
          refine ⟨?_, ?_, ?_⟩
          · intro x
            rw [A x]
            by_cases hcx : c = x
            · subst hcx
              simp [hf]
            · have hxc : ¬ (x = c) := fun hh => hcx hh.symm
              simp [hcx, hxc, List.mem_cons]
          · intro x hx hnone
            rcases List.mem_cons.mp hx with hxc | hxr
            · subst hxc
              exact C _ (by simp)
            · exact B x hxr hnone
          · intro ev he
            exact C ev (List.mem_append_left _ he)

/-- Claim C5: when New returns, a chain identifier is a key of the registry
exactly when it is configured and has a construction function (so the key
set is a subset of the configured chains), and every configured identifier
without a factory has an unsupported-chain event recorded. -/
theorem c5_registry_keys (conf : Config) (f : Except GoError IChainAdaptor)
    (d : chaindispatcher.ChainDispatcher) (e : Option GoError)
    (logs : List chaindispatcher.LogEvent)
    (h : chaindispatcher.New conf f = some (d, e, logs)) :
    (∀ c, (mapGet d.registry c).isSome ↔
        (c ∈ conf.chains ∧ (mapGet (chaindispatcher.chainAdaptorFactorMap f) c).isSome))
    ∧ (∀ c, c ∈ conf.chains → mapGet (chaindispatcher.chainAdaptorFactorMap f) c = none →
        chaindispatcher.LogEvent.unsupportedChain c ∈ logs) := by
  unfold chaindispatcher.New at h
  cases hn : chaindispatcher.newLoop f conf.chains [] [] with
  | none => rw [hn] at h; simp at h
  | some p =>
      obtain ⟨reg, lg⟩ := p
      rw [hn] at h
      simp at h
      obtain ⟨hd, he, hl⟩ := h
      obtain ⟨A, B, C⟩ := newLoop_spec f conf.chains [] [] reg lg hn
      constructor
      · intro c
        have hA := A c
        rw [show mapGet ([] : List (chaindispatcher.ChainType × IChainAdaptor)) c = none from rfl] at hA
        simp only [Option.isSome_none, Bool.false_eq_true, false_or] at hA
        rw [← hd]
        exact hA
      · intro c hc hnone
        rw [← hl]
        exact B c hc hnone

/-- Witness for c5_registry_keys at a concrete configuration listing the
ethereum chain and an unsupported chain. -/
theorem c5_witness :
    (mapGet ({ registry := [(ethereum.ChainName, adaptorW)] } :
        chaindispatcher.ChainDispatcher).registry "Ethereum").isSome ↔
      ("Ethereum" ∈ confW.chains ∧
        (mapGet (chaindispatcher.chainAdaptorFactorMap (Except.ok adaptorW)) "Ethereum").isSome) :=
  (c5_registry_keys confW (Except.ok adaptorW)
      { registry := [(ethereum.ChainName, adaptorW)] } none
      [chaindispatcher.LogEvent.unsupportedChain "bitcoin"] rfl).1 "Ethereum"

/-- Claim C10: New never returns a non-nil error — whenever it returns at
all (a factory failure terminates the process instead), the returned error
is nil, so the error-handling branch after chaindispatcher.New in main is
unreachable. -/
theorem c10_new_error_nil (conf : Config) (f : Except GoError IChainAdaptor)
    (d : chaindispatcher.ChainDispatcher) (e : Option GoError)
    (logs : List chaindispatcher.LogEvent)
    (h : chaindispatcher.New conf f = some (d, e, logs)) : e = none := by
  unfold chaindispatcher.New at h
  cases hn : chaindispatcher.newLoop f conf.chains [] [] with
  | none => rw [hn] at h; simp at h
  | some p =>
      obtain ⟨reg, lg⟩ := p
      rw [hn] at h
      simp at h
      exact h.2.1.symm

/-- Witness for c10_new_error_nil at a concrete configuration. -/
theorem c10_witness : (none : Option GoError) = none :=
  c10_new_error_nil confW (Except.ok adaptorW)
    { registry := [(ethereum.ChainName, adaptorW)] } none
    [chaindispatcher.LogEvent.unsupportedChain "bitcoin"] rfl
